import Mathlib

/-!
Shallow embedding of the delta-neutral hedge bot
(`hyperliquid_pacifica_hedge.py` together with `hyperliquid_connector.py`).

Machine reals (Python floats / `Decimal`) are modelled as `ℚ`; timestamps as
`ℕ`; venue identifiers and symbols as inductive / numeric codes (the program
only ever compares them for equality).  Calls to the two exchanges are
modelled by passing their observed answers as explicit arguments, so every
function here is the pure data-flow of the corresponding Python function.
-/

namespace HedgeBot

/-- States of the bot state machine (`class BotState`). -/
inductive BotState
  | IDLE
  | ANALYZING
  | OPENING
  | HOLDING
  | CLOSING
  | WAITING
  | ERROR
  | SHUTDOWN
deriving DecidableEq, Repr

/-- The two trading venues. -/
inductive Venue
  | Hyperliquid
  | Pacifica
deriving DecidableEq, Repr

/-- The `current_position` record persisted by the bot (symbols are coded as
naturals; timestamps as naturals). -/
structure Position where
  symbol : ℕ
  openedAt : ℕ
  targetCloseAt : ℕ
  longExchange : Venue
  shortExchange : Venue
  notional : ℚ
  leverage : ℚ
deriving DecidableEq, Repr

/-- The `cumulative_stats` record of the persisted state. -/
structure CumulativeStats where
  total_cycles : ℕ
  successful_cycles : ℕ
  failed_cycles : ℕ
  total_realized_pnl : ℚ
deriving DecidableEq, Repr

/-- The fresh `cumulative_stats` created by `StateManager.__init__`. -/
def initStats : CumulativeStats := ⟨0, 0, 0, 0⟩

/-- Dynamic stop-loss percentage as a function of leverage
(`calculate_dynamic_stop_loss`, hedge bot lines 282-316). -/
def calculate_dynamic_stop_loss (leverage : ℤ) : ℚ :=
  if leverage ≤ 1 then 50
  else if leverage = 2 then 30
  else if leverage = 3 then 20
  else if leverage = 4 then 15
  else if leverage = 5 then 12
  else max 2 (60 / (leverage : ℚ))

/-- Stop-loss breach test (`check_stop_loss`, hedge bot lines 318-342): the
caller passes the PnL figure under `total_unrealized_pnl`; a non-positive
notional never triggers. -/
def check_stop_loss (totalUnrealizedPnl notional stopLossPercent : ℚ) : Bool :=
  if notional ≤ 0 then false
  else decide (totalUnrealizedPnl / notional * 100 ≤ -stopLossPercent)

/-- Decision core of one `monitor_position` pass (hedge bot lines 858-1041):
if the hold duration has elapsed, or the stop-loss check on the worst
(smaller) of the two legs' unrealized PnL fires, `close_position()` is
entered, whose first action is `set_state(CLOSING)`; otherwise the bot stays
in `HOLDING`.  `stopOverride` is `pos.get("stop_loss_percent")`, defaulting
to the dynamic stop-loss of the stored leverage. -/
def monitor_stop_decision (holdExpired : Bool) (hlPnl paPnl notional : ℚ)
    (stopOverride : Option ℚ) (leverage : ℤ) : BotState :=
  if holdExpired then .CLOSING
  else
    let stopLossPercent := stopOverride.getD (calculate_dynamic_stop_loss leverage)
    let worstPnl := min hlPnl paPnl
    if check_stop_loss worstPnl notional stopLossPercent then .CLOSING else .HOLDING

/-- Result of the per-symbol position queries done by
`scan_symbols_for_positions` (hedge bot lines 346-377): a quantity of `0`
stands for "no position returned" (`hl_pos['qty'] if hl_pos else 0.0`). -/
structure SymbolQuery where
  symbol : ℕ
  hlQty : ℚ
  pacQty : ℚ
deriving DecidableEq, Repr

/-- Symbols retained by the scan: those where either venue reports a nonzero
quantity (`if hl_size != 0 or pacifica_size != 0`). -/
def scan_symbols_for_positions (queries : List SymbolQuery) : List SymbolQuery :=
  queries.filter (fun q => decide (q.hlQty ≠ 0 ∨ q.pacQty ≠ 0))

/-- Environment observed by `recover_state`: whether the orphan-leg market
close succeeds, the mid price answer (`get_mid_price` may return `None`),
the leverage reported by `get_leverage`, the current time, and the
configured hold duration. -/
structure RecoverEnv where
  orphanCloseOk : Bool
  midPrice : Option ℚ
  leverage : ℚ
  now : ℕ
  holdDuration : ℕ
deriving DecidableEq, Repr

/-- Outcome of `recover_state`: the boolean it returns together with the
persisted `state` and `current_position` once it has returned. -/
structure RecoverResult where
  success : Bool
  state : BotState
  pos : Option Position
deriving DecidableEq, Repr

/-- State recovery (`recover_state`, hedge bot lines 379-496).  With the
last persisted state `OPENING`/`CLOSING` it returns `False` at once, leaving
the persisted state and position untouched.  Otherwise: no scanned activity
resets to `IDLE` clearing the position; more than one active symbol sets
`ERROR`; an orphan leg is market-closed (success resets to `IDLE`, failure
sets `ERROR`); a two-leg pair outside the 5% delta-neutral tolerance sets
`ERROR`; otherwise the position is reconstructed and the state becomes
`HOLDING`. -/
def recover_state (prevState : BotState) (prevPos : Option Position)
    (queries : List SymbolQuery) (env : RecoverEnv) : RecoverResult :=
  if prevState = .OPENING ∨ prevState = .CLOSING then
    ⟨false, prevState, prevPos⟩
  else
    match scan_symbols_for_positions queries with
    | [] => ⟨true, .IDLE, none⟩
    | [q] =>
      if (q.hlQty ≠ 0 ∧ q.pacQty = 0) ∨ (q.pacQty ≠ 0 ∧ q.hlQty = 0) then
        if env.orphanCloseOk then ⟨true, .IDLE, none⟩
        else ⟨false, .ERROR, prevPos⟩
      else if |q.hlQty + q.pacQty| > max |q.hlQty| |q.pacQty| * (5 / 100) then
        ⟨false, .ERROR, prevPos⟩
      else
        let openedAt :=
          match prevState, prevPos with
          | .HOLDING, some p => p.openedAt
          | _, _ => env.now
        let estimatedNotional :=
          match env.midPrice with
          | some m => |q.hlQty| * m
          | none => 100
        let longExchange : Venue := if q.hlQty > 0 then .Hyperliquid else .Pacifica
        ⟨true, .HOLDING, some
          { symbol := q.symbol
            openedAt := openedAt
            targetCloseAt := openedAt + env.holdDuration
            longExchange := longExchange
            shortExchange := if longExchange = .Hyperliquid then .Pacifica else .Hyperliquid
            notional := estimatedNotional
            leverage := env.leverage }⟩
    | _ :: _ :: _ => ⟨false, .ERROR, prevPos⟩

/-- Annualization of an hourly funding rate
(`rate * 24 * 365 * 100`, hedge bot lines 235-236). -/
def annualize (hourlyRate : ℚ) : ℚ := hourlyRate * 24 * 365 * 100

/-- Per-asset context returned by the Hyperliquid `meta_and_asset_ctxs`
endpoint together with the `predictedFundings` endpoint: `funding` is the
last-applied hourly rate (the `"funding"` field), `predictedFunding` the
forward-looking next-period rate. -/
structure AssetCtx where
  funding : ℚ
  predictedFunding : ℚ
deriving DecidableEq, Repr

/-- Hyperliquid connector `get_funding_rates` (connector lines 215-246):
extracts the `"funding"` field of each asset context — the last-applied
rate, documented in the connector itself as deprecated for arbitrage. -/
def get_funding_rates (ctxs : List (ℕ × AssetCtx)) : List (ℕ × ℚ) :=
  ctxs.map (fun p => (p.1, p.2.funding))

/-- Hyperliquid connector `get_predicted_funding_rates` (connector lines
248-292): extracts the forward-looking next-period rate. -/
def get_predicted_funding_rates (ctxs : List (ℕ × AssetCtx)) : List (ℕ × ℚ) :=
  ctxs.map (fun p => (p.1, p.2.predictedFunding))

/-- An opportunity entry built by `fetch_funding_rates`
(hedge bot lines 244-252). -/
structure Opportunity where
  symbol : ℕ
  hl_apr : ℚ
  pacifica_apr : ℚ
  net_apr : ℚ
  long_exch : Venue
  short_exch : Venue
deriving DecidableEq, Repr

/-- Funding-rate comparison (`fetch_funding_rates`, hedge bot lines 216-256):
the Hyperliquid side comes from `get_funding_rates` (the last-applied rate);
symbols missing from the Hyperliquid answer are skipped; each rate is
annualized; the long venue is the one with the lower APR. -/
def fetch_funding_rates (hlCtxs : List (ℕ × AssetCtx)) (pacificaRate : ℕ → ℚ)
    (symbols : List ℕ) : List Opportunity :=
  let hlRates := get_funding_rates hlCtxs
  symbols.filterMap (fun symbol =>
    match hlRates.lookup symbol with
    | none => none
    | some hlRate =>
      let hl_apr := annualize hlRate
      let pacifica_apr := annualize (pacificaRate symbol)
      let long_exch : Venue := if hl_apr < pacifica_apr then .Hyperliquid else .Pacifica
      some { symbol := symbol
             hl_apr := hl_apr
             pacifica_apr := pacifica_apr
             net_apr := |hl_apr - pacifica_apr|
             long_exch := long_exch
             short_exch := if long_exch = .Hyperliquid then .Pacifica else .Hyperliquid })

/-- Hard leverage safety cap of `start_new_cycle`
(`MAX_ALLOWED_LEVERAGE = 20`, hedge bot line 709). -/
def MAX_ALLOWED_LEVERAGE : ℤ := 20

/-- Clamp performed inside the Hyperliquid connector `update_leverage`
(connector lines 131-133): a target above the venue maximum is replaced by
the maximum. -/
def hl_update_leverage_target (targetLeverage maxLeverage : ℤ) : ℤ :=
  if targetLeverage > maxLeverage then maxLeverage else targetLeverage

/-- Leverage negotiation of `start_new_cycle` (hedge bot line 714):
`min(config, hlMax, pacificaMax, MAX_ALLOWED_LEVERAGE)`. -/
def negotiate_final_leverage (configLeverage hlMaxLeverage pacificaMaxLeverage : ℤ) : ℤ :=
  min (min (min configLeverage hlMaxLeverage) pacificaMaxLeverage) MAX_ALLOWED_LEVERAGE

/-- Leverage values sent to the two venues by `start_new_cycle` (hedge bot
lines 733 and 740): the same `final_leverage` is passed to
`hl_client.update_leverage` (which applies its own clamp) and to
`pacifica_client.set_leverage`. -/
def set_leverage_both (configLeverage hlMaxLeverage pacificaMaxLeverage : ℤ) : ℤ × ℤ :=
  let finalLeverage := negotiate_final_leverage configLeverage hlMaxLeverage pacificaMaxLeverage
  (hl_update_leverage_target finalLeverage hlMaxLeverage, finalLeverage)

/-- Outcome of the notional-sizing step of `start_new_cycle`. -/
inductive SizingOutcome
  | abortWaiting
  | proceed (notional : ℚ)
deriving DecidableEq, Repr

/-- Notional sizing of `start_new_cycle` (hedge bot lines 751-776): a 2%
haircut on base capital times leverage gives the target; the margin cap is
the lesser of the two venues' available margin times leverage; below $10 of
that cap the cycle aborts to `WAITING`; otherwise the notional is the
minimum of the target and 95% of the cap. -/
def size_position_notional (baseCapital finalLeverage hlAvail paAvail : ℚ) : SizingOutcome :=
  let safeBaseCapital := baseCapital * (98 / 100)
  let targetPositionNotional := safeBaseCapital * finalLeverage
  let maxAvailableNotional := min (hlAvail * finalLeverage) (paAvail * finalLeverage)
  if maxAvailableNotional < 10 then .abortWaiting
  else .proceed (min targetPositionNotional (maxAvailableNotional * (95 / 100)))

/-- Truncation toward zero of a rational, mirroring Python
`Decimal.quantize(Decimal('1'), rounding=ROUND_DOWN)`. -/
def truncQ (q : ℚ) : ℤ := if q < 0 then -⌊-q⌋ else ⌊q⌋

/-- Hyperliquid connector `get_step_size` (connector lines 195-202):
`10 ** -szDecimals`. -/
def get_step_size (szDecimals : ℕ) : ℚ := 1 / 10 ^ szDecimals

/-- Quantity rounding of `open_position` (hedge bot line 811): divide by the
coarser step, truncate to an integer, multiply back. -/
def round_quantity (coarserStep unrounded : ℚ) : ℚ :=
  (truncQ (unrounded / coarserStep) : ℚ) * coarserStep

/-- Outcome of the quantity computation in `open_position`. -/
inductive OpenOutcome
  | noStepSize
  | skipNoPrice
  | rejectedZeroQty
  | placed (qty : ℚ)
deriving DecidableEq, Repr

/-- Quantity pipeline of `open_position` (hedge bot lines 789-829): a
missing Hyperliquid step size raises; a non-positive mark price skips the
cycle; the unrounded quantity `notional / price` is rounded down to the
coarser (`max`) of the two step sizes; a non-positive rounded quantity
raises before any order is sent; otherwise the single rounded quantity is
placed on both venues. -/
def open_position_quantity (hlStepSize : Option ℚ) (pacificaLotSize : ℚ)
    (notional price : ℚ) : OpenOutcome :=
  match hlStepSize with
  | none => .noStepSize
  | some hlStep =>
    if price ≤ 0 then .skipNoPrice
    else
      let coarserStepSize := max hlStep pacificaLotSize
      let finalQuantity := round_quantity coarserStepSize (notional / price)
      if finalQuantity ≤ 0 then .rejectedZeroQty else .placed finalQuantity

/-- The persisted state record built by `StateManager.__init__`
(hedge bot lines 139-157); `completedCycles` entries are coded as naturals
and `version` as a natural, since the bot only stores and reloads them. -/
structure PersistedState where
  version : ℕ
  state : BotState
  currentCycleNumber : ℕ
  currentPosition : Option Position
  completedCycles : List ℕ
  cumulativeStats : CumulativeStats
  initialCapital : Option ℚ
  lastUpdated : ℕ
deriving DecidableEq, Repr

/-- A stored JSON state file: any key may be absent, which `load` fills from
the in-memory defaults via `dict.update`. -/
structure StoredFile where
  version : Option ℕ
  state : Option BotState
  currentCycleNumber : Option ℕ
  currentPosition : Option (Option Position)
  completedCycles : Option (List ℕ)
  cumulativeStats : Option CumulativeStats
  initialCapital : Option (Option ℚ)
  lastUpdated : Option ℕ
deriving DecidableEq, Repr

/-- The fresh in-memory state of `StateManager.__init__`. -/
def freshState (now : ℕ) : PersistedState :=
  ⟨1, .IDLE, 0, none, [], initStats, none, now⟩

/-- StateManager `save` (hedge bot lines 176-185): refresh `last_updated` to
the current time, then write every field of the in-memory state to the file
(atomically).  The result is the new in-memory state and the written file. -/
def save (s : PersistedState) (now : ℕ) : PersistedState × StoredFile :=
  let s' := { s with lastUpdated := now }
  (s', ⟨some s'.version, some s'.state, some s'.currentCycleNumber,
        some s'.currentPosition, some s'.completedCycles,
        some s'.cumulativeStats, some s'.initialCapital, some s'.lastUpdated⟩)

/-- StateManager `load` (hedge bot lines 159-174): an absent or unreadable
file leaves the fresh defaults in place; otherwise `self.state.update(...)`
overwrites exactly the keys present in the file. -/
def load (current : PersistedState) (file : Option StoredFile) : PersistedState :=
  match file with
  | none => current
  | some f =>
    { version := f.version.getD current.version
      state := f.state.getD current.state
      currentCycleNumber := f.currentCycleNumber.getD current.currentCycleNumber
      currentPosition := f.currentPosition.getD current.currentPosition
      completedCycles := f.completedCycles.getD current.completedCycles
      cumulativeStats := f.cumulativeStats.getD current.cumulativeStats
      initialCapital := f.initialCapital.getD current.initialCapital
      lastUpdated := f.lastUpdated.getD current.lastUpdated }

/-- Stats update performed at the end of `close_position` (hedge bot lines
1120-1136), reached only after both legs are confirmed flat: nothing is
touched on an emergency unwind, and the counters are incremented only when
the balance fetches for the PnL computation succeed
(`except ... "Could not calculate PnL"` skips them). -/
def close_stats_update (isEmergency pnlCalcOk : Bool) (cyclePnl : ℚ)
    (s : CumulativeStats) : CumulativeStats :=
  if isEmergency then s
  else if pnlCalcOk then
    { s with total_cycles := s.total_cycles + 1
             successful_cycles := s.successful_cycles + 1
             total_realized_pnl := s.total_realized_pnl + cyclePnl }
  else s

/-- Operations of the bot as they affect `cumulative_stats`: the only write
anywhere in the repository is the block at the end of `close_position`;
every other operation (`other`) leaves the stats unchanged. -/
inductive BotOp
  | closeBothLegsFlat (isEmergency pnlCalcOk : Bool) (cyclePnl : ℚ)
  | other
deriving DecidableEq, Repr

/-- Effect of one operation on the cumulative stats. -/
def statsStep (s : CumulativeStats) : BotOp → CumulativeStats
  | .closeBothLegsFlat isEmergency pnlCalcOk cyclePnl =>
      close_stats_update isEmergency pnlCalcOk cyclePnl s
  | .other => s

/-- Cumulative stats reached from the fresh initial state after a sequence
of operations. -/
def runStats (ops : List BotOp) : CumulativeStats :=
  ops.foldl statsStep initStats

/-- C4: the dynamic stop-loss function maps leverage 1,2,3,4,5,10,20 to
50,30,20,15,12,6,3 percent; every leverage at most 1 (including 0 and
negatives) yields 50; and every leverage above 5 yields
`max 2 (60 / L)` percent. -/
theorem dynamic_stop_loss_table :
    (calculate_dynamic_stop_loss 1 = 50 ∧ calculate_dynamic_stop_loss 2 = 30 ∧
     calculate_dynamic_stop_loss 3 = 20 ∧ calculate_dynamic_stop_loss 4 = 15 ∧
     calculate_dynamic_stop_loss 5 = 12 ∧ calculate_dynamic_stop_loss 10 = 6 ∧
     calculate_dynamic_stop_loss 20 = 3) ∧
    (∀ L : ℤ, L ≤ 1 → calculate_dynamic_stop_loss L = 50) ∧
    (∀ L : ℤ, 5 < L → calculate_dynamic_stop_loss L = max 2 (60 / (L : ℚ))) := by
  refine ⟨⟨?_, ?_, ?_, ?_, ?_, ?_, ?_⟩, ?_, ?_⟩
  · norm_num [calculate_dynamic_stop_loss, max_def]
  · norm_num [calculate_dynamic_stop_loss, max_def]
  · norm_num [calculate_dynamic_stop_loss, max_def]
  · norm_num [calculate_dynamic_stop_loss, max_def]
  · norm_num [calculate_dynamic_stop_loss, max_def]
  · norm_num [calculate_dynamic_stop_loss, max_def]
  · norm_num [calculate_dynamic_stop_loss, max_def]
  · intro L hL
    unfold calculate_dynamic_stop_loss
    rw [if_pos hL]
  · intro L hL
    unfold calculate_dynamic_stop_loss
    rw [if_neg (by omega), if_neg (by omega), if_neg (by omega), if_neg (by omega),
      if_neg (by omega)]

/-- Witness for C4 at leverage 0 and leverage 12. -/
theorem dynamic_stop_loss_table_witness :
    calculate_dynamic_stop_loss 0 = 50 ∧ calculate_dynamic_stop_loss 12 = 5 := by
  constructor
  · exact dynamic_stop_loss_table.2.1 0 (by decide)
  · rw [dynamic_stop_loss_table.2.2 12 (by decide)]
    norm_num [max_def]

/-- C7: the leverage applied before sizing is the minimum of the configured
leverage, the two venues' per-symbol maxima, and the hard cap of 20, and
the identical value acts on both venues (the Hyperliquid connector clamp
leaves it unchanged); with configuration 10, venue maxima 5 and 8, and cap
20, the final leverage is 5 on both. -/
theorem leverage_negotiation_spec (configLeverage hlMaxLeverage pacificaMaxLeverage : ℤ) :
    ((set_leverage_both configLeverage hlMaxLeverage pacificaMaxLeverage).1 =
      (set_leverage_both configLeverage hlMaxLeverage pacificaMaxLeverage).2) ∧
    ((set_leverage_both configLeverage hlMaxLeverage pacificaMaxLeverage).2 ≤ configLeverage ∧
     (set_leverage_both configLeverage hlMaxLeverage pacificaMaxLeverage).2 ≤ hlMaxLeverage ∧
     (set_leverage_both configLeverage hlMaxLeverage pacificaMaxLeverage).2 ≤ pacificaMaxLeverage ∧
     (set_leverage_both configLeverage hlMaxLeverage pacificaMaxLeverage).2 ≤ 20) ∧
    ((set_leverage_both configLeverage hlMaxLeverage pacificaMaxLeverage).2 = configLeverage ∨
     (set_leverage_both configLeverage hlMaxLeverage pacificaMaxLeverage).2 = hlMaxLeverage ∨
     (set_leverage_both configLeverage hlMaxLeverage pacificaMaxLeverage).2 = pacificaMaxLeverage ∨
     (set_leverage_both configLeverage hlMaxLeverage pacificaMaxLeverage).2 = 20) ∧
    set_leverage_both 10 5 8 = (5, 5) := by
  refine ⟨?_, ⟨?_, ?_, ?_, ?_⟩, ?_, by decide⟩ <;>
    simp only [set_leverage_both, negotiate_final_leverage, hl_update_leverage_target,
      MAX_ALLOWED_LEVERAGE] <;>
    first
      | (split_ifs <;> omega)
      | omega

/-- C3: the Hyperliquid funding input to the opportunity comparison is the
output of `get_funding_rates` — the last-applied `"funding"` context field —
not the forward-looking rate of `get_predicted_funding_rates`; at an asset
whose two rates differ the computed APR equals the annualized last-applied
rate and differs from the annualized predicted rate. -/
theorem fetch_funding_uses_last_applied_rate :
    (fetch_funding_rates [(0, ⟨1 / 10000, 2 / 10000⟩)] (fun _ => 0) [0]).map
        Opportunity.hl_apr =
      [annualize (AssetCtx.funding ⟨1 / 10000, 2 / 10000⟩)] ∧
    annualize (AssetCtx.funding ⟨1 / 10000, 2 / 10000⟩) ≠
      annualize (AssetCtx.predictedFunding ⟨1 / 10000, 2 / 10000⟩) ∧
    get_funding_rates [(0, ⟨1 / 10000, 2 / 10000⟩)] ≠
      get_predicted_funding_rates [(0, ⟨1 / 10000, 2 / 10000⟩)] := by
  refine ⟨?_, ?_, ?_⟩
  · simp [fetch_funding_rates, get_funding_rates, annualize, List.lookup]
  · simp only [annualize]
    norm_num
  · simp only [get_funding_rates, get_predicted_funding_rates, List.map, ne_eq,
      List.cons.injEq, Prod.mk.injEq, and_true, true_and]
    norm_num

/-- C10 counterexample: a non-emergency close that flattens both legs but
whose PnL balance fetch fails increments no counter at all — `total_cycles`
stays 0 instead of being incremented exactly once. -/
theorem close_stats_skips_increment_on_pnl_failure :
    statsStep initStats (.closeBothLegsFlat false false 0) = initStats ∧
    (statsStep initStats (.closeBothLegsFlat false false 0)).total_cycles = 0 := by
  refine ⟨rfl, rfl⟩

/-- C10 (amended): from the fresh initial state, `failed_cycles` is 0 in
every reachable stats state and `successful_cycles` always equals
`total_cycles`: the two are only ever incremented together, by the
successful non-emergency close whose PnL computation succeeds, and every
other operation leaves all counters unchanged. -/
theorem cumulative_stats_invariant (ops : List BotOp) :
    (runStats ops).failed_cycles = 0 ∧
    (runStats ops).successful_cycles = (runStats ops).total_cycles := by
  have key : ∀ (l : List BotOp) (s : CumulativeStats),
      s.failed_cycles = 0 → s.successful_cycles = s.total_cycles →
      (l.foldl statsStep s).failed_cycles = 0 ∧
      (l.foldl statsStep s).successful_cycles = (l.foldl statsStep s).total_cycles := by
    intro l
    induction l with
    | nil => exact fun s h1 h2 => ⟨h1, h2⟩
    | cons op rest ih =>
      intro s h1 h2
      refine ih (statsStep s op) ?_ ?_ <;>
        cases op <;>
        simp only [statsStep, close_stats_update] <;>
        first
          | (split_ifs <;> simp [h1, h2])
          | assumption
  exact key ops initStats rfl rfl

/-- C9: loading a state file previously written by `save` and saving again
reproduces the stored file field-for-field, except that `last_updated` is
refreshed to the later save time, monotonically. -/
theorem save_load_roundtrip (s d : PersistedState) (t1 t2 : ℕ) (hmono : t1 ≤ t2) :
    (save (load d (some (save s t1).2)) t2).2 =
      { (save s t1).2 with lastUpdated := some t2 } ∧
    (save s t1).2.lastUpdated.getD 0 ≤
      (save (load d (some (save s t1).2)) t2).2.lastUpdated.getD 0 := by
  refine ⟨rfl, ?_⟩
  simpa [save] using hmono

/-- Witness for C9 at a concrete state, an unrelated default, and save
times 1 and 2. -/
theorem save_load_roundtrip_witness :
    (save (load (freshState 5) (some (save (freshState 0) 1).2)) 2).2 =
      { (save (freshState 0) 1).2 with lastUpdated := some 2 } :=
  (save_load_roundtrip (freshState 0) (freshState 5) 1 2 (by decide)).1

/-- C5: during a HOLDING monitoring pass with positive notional and the
hold duration not yet elapsed, the next state is CLOSING exactly when the
worst (smaller) of the two legs' unrealized PnL over the notional is at
most `-stopLossPercent/100`; the scenario worst leg = -22 on notional 100
at threshold 20 triggers while the net total (-22 + 3 = -19) would not. -/
theorem stop_loss_worst_leg_trigger (hlPnl paPnl notional stopLossPercent : ℚ)
    (leverage : ℤ) (hn : 0 < notional) :
    (monitor_stop_decision false hlPnl paPnl notional (some stopLossPercent) leverage =
        .CLOSING ↔
      min hlPnl paPnl / notional ≤ -(stopLossPercent / 100)) ∧
    monitor_stop_decision false (-22) 3 100 (some 20) 3 = .CLOSING ∧
    check_stop_loss ((-22) + 3) 100 20 = false := by
  have harith : (min hlPnl paPnl / notional * 100 ≤ -stopLossPercent) ↔
      (min hlPnl paPnl / notional ≤ -(stopLossPercent / 100)) := by
    constructor <;> intro h <;> linarith
  refine ⟨?_, ?_, ?_⟩
  · simp only [monitor_stop_decision, check_stop_loss, Option.getD_some,
      if_neg (not_le.mpr hn), Bool.false_eq_true, if_false, decide_eq_true_eq]
    split_ifs with h
    · exact iff_of_true rfl (harith.mp h)
    · exact iff_of_false (by simp) (fun hc => h (harith.mpr hc))
  · norm_num [monitor_stop_decision, check_stop_loss, min_def]
  · simp only [check_stop_loss, if_neg (by norm_num : ¬((100 : ℚ) ≤ 0)),
      decide_eq_false_iff_not]
    norm_num

/-- Witness for C5 at the spec scenario: worst-leg PnL -22% of a notional
of 100 at stop-loss threshold 20% transitions HOLDING to CLOSING. -/
theorem stop_loss_worst_leg_trigger_witness :
    monitor_stop_decision false (-22) 3 100 (some 20) 3 = .CLOSING := by
  refine ((stop_loss_worst_leg_trigger (-22) 3 100 20 3 (by norm_num)).1).mpr ?_
  norm_num [min_def]

/-- C8 counterexample: with base capital 2, leverage 1, and 100 available
on each venue, the resulting notional is 1.96, below the $10 minimum, yet
sizing proceeds (the code only checks the margin cap against $10) and the
downstream quantity pipeline places an order. -/
theorem sizing_below_minimum_proceeds :
    size_position_notional 2 1 100 100 = .proceed (49 / 25) ∧
    (49 / 25 : ℚ) < 10 ∧
    open_position_quantity (some (1 / 100)) (1 / 100) (49 / 25) 1 = .placed (49 / 25) := by
  refine ⟨?_, by norm_num, ?_⟩
  · norm_num [size_position_notional, min_def]
  · norm_num [open_position_quantity, round_quantity, truncQ, max_def]

/-- C8 (amended): sizing computes target `base*0.98*leverage` and margin
cap `min(hlAvail, paAvail)*leverage`; it aborts to WAITING exactly when
that cap is below 10 (before the 95% haircut and before comparison with
the target); otherwise it proceeds with `min(target, cap*0.95)`, which is
not itself re-checked against the minimum. -/
theorem sizing_spec (baseCapital finalLeverage hlAvail paAvail : ℚ) :
    (size_position_notional baseCapital finalLeverage hlAvail paAvail = .abortWaiting ↔
      min (hlAvail * finalLeverage) (paAvail * finalLeverage) < 10) ∧
    (10 ≤ min (hlAvail * finalLeverage) (paAvail * finalLeverage) →
      size_position_notional baseCapital finalLeverage hlAvail paAvail =
        .proceed (min (baseCapital * (98 / 100) * finalLeverage)
          (min (hlAvail * finalLeverage) (paAvail * finalLeverage) * (95 / 100)))) := by
  constructor
  · simp only [size_position_notional]
    split_ifs with h
    · exact iff_of_true rfl h
    · exact iff_of_false (by simp) h
  · intro h
    simp only [size_position_notional, if_neg (not_lt.mpr h)]

/-- Witness for C8 (amended): base 100, leverage 3, available margins 50
and 60 give notional `min(294, 142.5) = 142.5`. -/
theorem sizing_spec_witness :
    size_position_notional 100 3 50 60 = .proceed (285 / 2) := by
  rw [(sizing_spec 100 3 50 60).2 (by norm_num [min_def])]
  norm_num [min_def]

/-- C6: in `open_position`, with positive step sizes and price and
nonnegative notional, any placed quantity is an integer multiple of the
coarser (larger) of the two venue increments, never exceeds the unrounded
quantity `notional/price`, and undershoots it by less than one increment
(rounded down, never up); a non-positive rounded quantity is rejected with
no order; and with steps 0.001 and 0.01 the unrounded quantity 1.2345
yields 1.23. -/
theorem open_quantity_spec (hlStep pacificaLot notional price : ℚ)
    (hs : 0 < hlStep) (hpl : 0 < pacificaLot) (hp : 0 < price) (hn : 0 ≤ notional) :
    (∀ qty, open_position_quantity (some hlStep) pacificaLot notional price = .placed qty →
      (∃ k : ℤ, qty = (k : ℚ) * max hlStep pacificaLot) ∧
      qty ≤ notional / price ∧
      notional / price - qty < max hlStep pacificaLot) ∧
    (round_quantity (max hlStep pacificaLot) (notional / price) ≤ 0 →
      open_position_quantity (some hlStep) pacificaLot notional price = .rejectedZeroQty) ∧
    open_position_quantity (some (get_step_size 3)) (1 / 100) (12345 / 10000) 1 =
      .placed (123 / 100) := by
  have hc : 0 < max hlStep pacificaLot := lt_of_lt_of_le hs (le_max_left _ _)
  have hu : 0 ≤ notional / price := div_nonneg hn hp.le
  have hq0 : 0 ≤ notional / price / max hlStep pacificaLot := div_nonneg hu hc.le
  have htr : round_quantity (max hlStep pacificaLot) (notional / price) =
      (⌊notional / price / max hlStep pacificaLot⌋ : ℚ) * max hlStep pacificaLot := by
    unfold round_quantity truncQ
    rw [if_neg (not_lt.mpr hq0)]
  refine ⟨?_, ?_, ?_⟩
  · intro qty hqty
    simp only [open_position_quantity, if_neg (not_le.mpr hp)] at hqty
    split_ifs at hqty with hz
    simp only [OpenOutcome.placed.injEq] at hqty
    subst hqty
    rw [htr]
    refine ⟨⟨⌊notional / price / max hlStep pacificaLot⌋, rfl⟩, ?_, ?_⟩
    · calc (⌊notional / price / max hlStep pacificaLot⌋ : ℚ) * max hlStep pacificaLot
          ≤ notional / price / max hlStep pacificaLot * max hlStep pacificaLot :=
            mul_le_mul_of_nonneg_right (Int.floor_le _) hc.le
        _ = notional / price := div_mul_cancel₀ _ (ne_of_gt hc)
    · have h2 : notional / price / max hlStep pacificaLot <
          ⌊notional / price / max hlStep pacificaLot⌋ + 1 := Int.lt_floor_add_one _
      have h3 : notional / price <
          ((⌊notional / price / max hlStep pacificaLot⌋ : ℚ) + 1) * max hlStep pacificaLot := by
        have hmul := mul_lt_mul_of_pos_right h2 hc
        rwa [div_mul_cancel₀ _ (ne_of_gt hc)] at hmul
      nlinarith [h3]
  · intro hz
    simp only [open_position_quantity, if_neg (not_le.mpr hp), if_pos hz]
  · norm_num [open_position_quantity, round_quantity, truncQ, get_step_size, max_def]

/-- Witness for C6: with venue steps 0.001 and 0.01 and unrounded quantity
1.2345, the placed quantity 1.23 is at most the unrounded quantity and
within one coarser increment of it. -/
theorem open_quantity_spec_witness :
    (123 / 100 : ℚ) ≤ (12345 / 10000 : ℚ) / 1 ∧
    (12345 / 10000 : ℚ) / 1 - 123 / 100 < max (1 / 1000 : ℚ) (1 / 100) := by
  have h := open_quantity_spec (1 / 1000) (1 / 100) (12345 / 10000) 1
    (by norm_num) (by norm_num) (by norm_num) (by norm_num)
  have hq := h.1 (123 / 100)
    (by norm_num [open_position_quantity, round_quantity, truncQ, max_def])
  exact ⟨hq.2.1, hq.2.2⟩

/-- C1: whenever `recover_state` reports success, the persisted outcome is
IDLE with the position cleared, or HOLDING with exactly one scanned symbol
whose two live leg quantities lie within the 5% delta-neutral tolerance
(and a reconstructed position present), or ERROR; no other combination is
reachable. -/
theorem recover_success_states (prevState : BotState) (prevPos : Option Position)
    (queries : List SymbolQuery) (env : RecoverEnv)
    (h : (recover_state prevState prevPos queries env).success = true) :
    ((recover_state prevState prevPos queries env).state = .IDLE ∧
      (recover_state prevState prevPos queries env).pos = none) ∨
    ((recover_state prevState prevPos queries env).state = .HOLDING ∧
      ∃ q, scan_symbols_for_positions queries = [q] ∧
        |q.hlQty + q.pacQty| ≤ max |q.hlQty| |q.pacQty| * (5 / 100) ∧
        (recover_state prevState prevPos queries env).pos.isSome = true) ∨
    (recover_state prevState prevPos queries env).state = .ERROR := by
  unfold recover_state at h ⊢
  by_cases hoc : prevState = .OPENING ∨ prevState = .CLOSING
  · simp [hoc] at h
  · simp only [if_neg hoc] at h ⊢
    rcases hscan : scan_symbols_for_positions queries with _ | ⟨q, _ | ⟨q2, rest⟩⟩ <;>
      simp only [hscan] at h ⊢
    · exact Or.inl ⟨by simp, by simp⟩
    · by_cases horph : (q.hlQty ≠ 0 ∧ q.pacQty = 0) ∨ (q.pacQty ≠ 0 ∧ q.hlQty = 0)
      · simp only [if_pos horph] at h ⊢
        cases hok : env.orphanCloseOk <;> simp only [hok] at h ⊢
        · simp at h
        · exact Or.inl ⟨by simp, by simp⟩
      · simp only [if_neg horph] at h ⊢
        by_cases htol : |q.hlQty + q.pacQty| > max |q.hlQty| |q.pacQty| * (5 / 100)
        · simp only [if_pos htol] at h
          simp at h
        · simp only [if_neg htol] at h ⊢
          exact Or.inr (Or.inl ⟨by simp, q, rfl, not_lt.mp htol, by simp⟩)
    · simp at h

/-- Witness for C1: with no scanned activity, recovery succeeds and the
outcome is among the allowed combinations. -/
theorem recover_success_states_witness :
    ((recover_state .IDLE none [] ⟨true, none, 1, 0, 8⟩).state = .IDLE ∧
      (recover_state .IDLE none [] ⟨true, none, 1, 0, 8⟩).pos = none) ∨
    ((recover_state .IDLE none [] ⟨true, none, 1, 0, 8⟩).state = .HOLDING ∧
      ∃ q, scan_symbols_for_positions ([] : List SymbolQuery) = [q] ∧
        |q.hlQty + q.pacQty| ≤ max |q.hlQty| |q.pacQty| * (5 / 100) ∧
        (recover_state .IDLE none [] ⟨true, none, 1, 0, 8⟩).pos.isSome = true) ∨
    (recover_state .IDLE none [] ⟨true, none, 1, 0, 8⟩).state = .ERROR :=
  recover_success_states .IDLE none [] ⟨true, none, 1, 0, 8⟩ rfl

/-- In-flight refusal branch of `recover_state` (hedge bot lines 384-386):
an `OPENING`/`CLOSING` last state short-circuits the whole function. -/
theorem recover_state_inflight_eq (prevState : BotState) (prevPos : Option Position)
    (queries : List SymbolQuery) (env : RecoverEnv)
    (h : prevState = .OPENING ∨ prevState = .CLOSING) :
    recover_state prevState prevPos queries env = ⟨false, prevState, prevPos⟩ := by
  unfold recover_state
  rw [if_pos h]

/-- C2 counterexample: with last persisted state OPENING, `recover_state`
returns failure but leaves the persisted state at OPENING — it does not
transition it to ERROR. -/
theorem recover_opening_not_error :
    (recover_state .OPENING none [⟨0, 1, -1⟩] ⟨true, some 1, 1, 0, 8⟩).success = false ∧
    (recover_state .OPENING none [⟨0, 1, -1⟩] ⟨true, some 1, 1, 0, 8⟩).state = .OPENING ∧
    (recover_state .OPENING none [⟨0, 1, -1⟩] ⟨true, some 1, 1, 0, 8⟩).state ≠ .ERROR := by
  rw [recover_state_inflight_eq .OPENING none [⟨0, 1, -1⟩] ⟨true, some 1, 1, 0, 8⟩
    (Or.inl rfl)]
  refine ⟨rfl, rfl, by simp⟩

/-- C2 (amended): whenever the last persisted state is OPENING or CLOSING,
`recover_state` refuses automatic recovery, returning failure immediately
(demanding manual intervention) while leaving the persisted state and
position unchanged. -/
theorem recover_refuses_inflight (prevState : BotState) (prevPos : Option Position)
    (queries : List SymbolQuery) (env : RecoverEnv)
    (h : prevState = .OPENING ∨ prevState = .CLOSING) :
    recover_state prevState prevPos queries env = ⟨false, prevState, prevPos⟩ :=
  recover_state_inflight_eq prevState prevPos queries env h

/-- Witness for C2 (amended) at last state CLOSING. -/
theorem recover_refuses_inflight_witness :
    recover_state .CLOSING none [] ⟨true, none, 1, 0, 8⟩ = ⟨false, .CLOSING, none⟩ :=
  recover_refuses_inflight .CLOSING none [] ⟨true, none, 1, 0, 8⟩ (Or.inr rfl)

end HedgeBot
